import Mathlib

/-!
Verification development for the FWCAM fuel-price integration
(custom_components/fwcam).  The Python source is shallowly embedded:

* JSON/Python values are modelled by the inductive type `JVal`
  (numbers as rationals, which is exact for the decimal prices the
  provider serves; Python treats `bool` as a numeric subtype of `int`,
  and the embedding mirrors that in `isNumericPy`/`asNum`).
* Python dictionaries are association lists with unique keys looked up
  by `lookup`; `dict.get(k)` is `pyGet` (absent keys yield `JVal.null`,
  the embedding of Python `None`),  `dict.get(k, d)` is `pyGetD`.
* Python truthiness (`if x`, `a or b`) is `truthy`/`pyOr`.
* Fallible code is embedded with `Except`; functions that the source
  guarantees cannot raise are total Lean functions.
-/

namespace FWCAM

/-- JSON-like runtime values as decoded by Python from the provider
response, plus the values stored in configuration dictionaries. -/
inductive JVal where
  | null
  | bool (b : Bool)
  | num (q : ℚ)
  | str (s : String)
  | arr (items : List JVal)
  | dict (fields : List (String × JVal))

/-- First-match association-list lookup; Python dictionaries have unique
keys, so this is exactly dictionary lookup. -/
def lookup : List (String × JVal) → String → Option JVal
  | [], _ => none
  | (k, v) :: rest, key => if k = key then some v else lookup rest key

/-- Python `d.get(key)`: the stored value, or `None` when the key is
absent. -/
def pyGet (fields : List (String × JVal)) (key : String) : JVal :=
  (lookup fields key).getD .null

/-- Python `d.get(key, default)`. -/
def pyGetD (fields : List (String × JVal)) (key : String) (default : JVal) : JVal :=
  (lookup fields key).getD default

/-- Python truthiness of a value: `None`, `False`, numeric zero, and
empty strings/lists/dicts are falsy, everything else is truthy. -/
def truthy : JVal → Bool
  | .null => false
  | .bool b => b
  | .num q => decide (q ≠ 0)
  | .str s => decide (s ≠ "")
  | .arr items => !items.isEmpty
  | .dict fields => !fields.isEmpty

/-- Python `a or b`: `a` when `a` is truthy, otherwise `b`. -/
def pyOr (a b : JVal) : JVal :=
  if truthy a then a else b

/-- Does the value embed Python `None`. -/
def JVal.isNull : JVal → Bool
  | .null => true
  | _ => false

/-- Python `isinstance(v, (int, float))`.  Python booleans are a subtype
of `int`, so they count as numeric. -/
def isNumericPy : JVal → Bool
  | .num _ => true
  | .bool _ => true
  | _ => false

/-- Numeric value of a Python number; booleans coerce to 1/0.  Only
meaningful when `isNumericPy` holds (other cases default to 0). -/
def numValPy : JVal → ℚ
  | .num q => q
  | .bool b => if b then 1 else 0
  | _ => 0

/-- Python dictionary assignment `d[k] = v` on an association list:
replace an existing binding in place, otherwise append. -/
def setKeyList (fields : List (String × JVal)) (key : String) (v : JVal) :
    List (String × JVal) :=
  if fields.any (fun p => p.1 = key) then
    fields.map (fun p => if p.1 = key then (key, v) else p)
  else
    fields ++ [(key, v)]

/-- Dictionary assignment lifted to `JVal`; the call sites only reach
this with dictionaries, other values are returned unchanged. -/
def JVal.setKey : JVal → String → JVal → JVal
  | .dict fields, key, v => .dict (setKeyList fields key v)
  | other, _, _ => other

/-- The three station-level fuel kinds, in the fixed order in which both
the validator and the sensor scan them. -/
def fuelKinds : List String := ["e5", "e10", "diesel"]

/-- The identity fields the validator requires (wire names of the
spec fields id, name, brand, latitude, longitude). -/
def requiredFields : List String := ["id", "name", "brand", "lat", "lng"]

/-- Does one price entry count as a valid price in
`TankerkoenigProvider.validate_station`: the key is present, the stored
value is not `None`, is numeric (`isinstance(v, (int, float))`), and is
strictly greater than 0. -/
def validPriceEntry (priceFields : List (String × JVal)) (kind : String) : Bool :=
  match lookup priceFields kind with
  | some v => isNumericPy v && decide (0 < numValPy v)
  | none => false

/-- Embedding of `TankerkoenigProvider.validate_station`
(providers/tankerkönig.py, lines 122-167): the record must be a dict,
its price entry must be a dict, at least one of e5/e10/diesel must be a
valid price, and the five identity keys must be present (their values
are not inspected). -/
def validate_station (station : JVal) : Bool :=
  match station with
  | .dict fields =>
    match lookup fields "price" with
    | some (.dict priceFields) =>
      if fuelKinds.any (fun kind => validPriceEntry priceFields kind) then
        requiredFields.all (fun k => (lookup fields k).isSome)
      else false
    | _ => false
  | _ => false

/-- Outcome of the single HTTP GET inside
`TankerkoenigProvider.fetch_stations`: either the transport layer fails
(`aiohttp.ClientError`) or a response with a status code and a decoded
JSON body arrives. -/
inductive HttpResult where
  | transportError (msg : String)
  | response (status : Nat) (body : JVal)

/-- Embedding of `TankerkoenigProvider.fetch_stations`
(providers/tankerkönig.py, lines 71-120) as a function of the HTTP
outcome.  Transport errors and unexpected exceptions are caught and
yield an empty list; a non-200 status or a falsy top-level ok flag also
yields an empty list; otherwise the stations array is filtered through
`validate_station`.  Malformed shapes (non-dict body, non-dict data,
non-array stations) end in the broad except handler or in an empty
iteration, and in every such case the Python function returns the empty
list, which the embedding returns directly. -/
def fetchStations : HttpResult → List JVal
  | .transportError _ => []
  | .response status body =>
    if status ≠ 200 then []
    else
      match body with
      | .dict bodyFields =>
        if truthy (pyGet bodyFields "ok") = false then []
        else
          match lookup bodyFields "data" with
          | some (.dict dataFields) =>
            match lookup dataFields "stations" with
            | some (.arr stations) => stations.filter validate_station
            | _ => []
          | some _ => []
          | none => []
      | _ => []

/-- Embedding of the radius adjustment in
`TankerkoenigProvider.fetch_stations` (line 52): the radius placed into
the request parameters is `min(radius, 25)`. -/
def effectiveRadius (radius : ℤ) : ℤ :=
  min radius 25

/-!
The price selector of `FwcamStationSensor._handle_coordinator_update`
(sensors/station_sensor.py, lines 84-104).  The nested loops (stations
outer, for fuelType all the kinds e5, e10, diesel inner) are embedded as
one structural recursion over the flattened list of (station index,
fuel kind) probes, which visits exactly the same price reads in exactly
the same order.  The loop mutates the winning station dictionary in
place (keys selected_fuel_type / selected_price), so the embedding
threads the station list through the recursion and returns the mutated
list alongside the result.  A probe whose price value is truthy but not
numeric makes Python raise a TypeError at the comparison with the float
best_price; that is the `Except.error` case.
-/

/-- Reading `station.get("price", {}).get(kind)` for one station: a
non-dict station or a station whose price value is present but not a
dict makes Python raise (no `get` attribute); a dict without a price
key uses the empty-dict default, so the kind lookup yields `None`. -/
def priceRead (station : JVal) (kind : String) : Except Unit JVal :=
  match station with
  | .dict fields =>
    match lookup fields "price" with
    | some (.dict priceFields) => .ok (pyGet priceFields kind)
    | some _ => .error ()
    | none => .ok .null
  | _ => .error ()

/-- Values Python can compare with the float `best_price`: numbers, and
booleans (which are ints). -/
def asNum : JVal → Option ℚ
  | .num q => some q
  | .bool b => some (if b then 1 else 0)
  | _ => none

/-- One probe of the selection loop: `price = price_obj.get(kind)`
followed by the truthiness test `if price`.  Result: `none` when the
probe is skipped (absent, None, or falsy — numeric zero), `some q` when
the price takes part in the comparison, and an error when the station
shape is wrong or a truthy non-numeric price reaches the comparison. -/
def probeVal (stations : List JVal) (i : Nat) (kind : String) :
    Except Unit (Option ℚ) :=
  match priceRead (stations.getD i .null) kind with
  | .error e => .error e
  | .ok price =>
    if truthy price then
      match asNum price with
      | some q => .ok (some q)
      | none => .error ()
    else .ok none

/-- The fuel kinds one station is scanned against: the fixed list
[e5, e10, diesel] for the all request, otherwise the single requested
kind. -/
def kindsFor (fuelType : String) : List String :=
  if fuelType = "all" then fuelKinds else [fuelType]

/-- The flattened (station index, fuel kind) probe sequence of the
selection loop, in visiting order. -/
def probeList (n : Nat) (fuelType : String) : List (Nat × String) :=
  (List.range n).flatMap (fun i => (kindsFor fuelType).map (fun k => (i, k)))

/-- The strict-less-than update test `price < best_price`; `best_price`
starts as the float infinity, so any numeric price beats an empty best. -/
def betterThan (q : ℚ) : Option (Nat × String × ℚ) → Bool
  | none => true
  | some (_, _, bestPrice) => decide (q < bestPrice)

/-- The in-place writes `best_station["selected_fuel_type"] = kind` and
`best_station["selected_price"] = price` applied to position `i` of the
station list. -/
def mutateAt (stations : List JVal) (i : Nat) (kind : String) (q : ℚ) :
    List JVal :=
  stations.set i
    (((stations.getD i .null).setKey "selected_fuel_type" (.str kind)).setKey
      "selected_price" (.num q))

/-- The selection loop over the remaining probes, carrying the current
best (index, kind, price) and the station list with the mutations made
so far.  Price reads go through the original station list, which agrees
with the source because the in-place writes never touch the price
dictionary. -/
def selectGo (stations : List JVal) :
    List (Nat × String) → Option (Nat × String × ℚ) → List JVal →
    Except Unit (Option (Nat × String × ℚ) × List JVal)
  | [], best, muts => .ok (best, muts)
  | (i, k) :: rest, best, muts =>
    match probeVal stations i k with
    | .error e => .error e
    | .ok none => selectGo stations rest best muts
    | .ok (some q) =>
      if betterThan q best then
        selectGo stations rest (some (i, k, q)) (mutateAt muts i k q)
      else selectGo stations rest best muts

/-- The whole selection pass of `_handle_coordinator_update` over a
non-empty station list: best starts at None/infinity and the station
list starts unmutated. -/
def selectLoop (stations : List JVal) (fuelType : String) :
    Except Unit (Option (Nat × String × ℚ) × List JVal) :=
  selectGo stations (probeList stations.length fuelType) none stations

/-- One probe outcome of the selection: station index, fuel kind, and
the price that took part in the comparison. -/
abbrev Probe := Nat × String × ℚ

/-- The probes of a probe sequence that actually take part in the
comparison (present, truthy, numeric prices), with their values, in
visiting order. -/
def usableOf (stations : List JVal) (ps : List (Nat × String)) : List Probe :=
  ps.filterMap (fun p =>
    match probeVal stations p.1 p.2 with
    | .ok (some q) => some (p.1, p.2, q)
    | _ => none)

/-- The usable probes of a whole selection pass.  This is the flattened
(station, kind) set of the specification, in visiting order. -/
def usableProbes (stations : List JVal) (fuelType : String) : List Probe :=
  usableOf stations (probeList stations.length fuelType)

/-!
Coordinator model (coordinator.py).  `FwcamDataUpdateCoordinator` keeps
a mutable state dictionary, fetches stations through the provider, and
returns a snapshot dictionary; the Home Assistant base class
`DataUpdateCoordinator` stores the returned snapshot in `self.data`
(initially `None`), keeps the old `self.data` and sets
`last_update_success = False` when `_async_update_data` raises
`UpdateFailed`, and sets `self.data` and `last_update_success = True`
when it returns.  Timestamps are abstracted to a cycle counter.
-/

/-- The per-provider entry the coordinator writes into
`self._state["providers"]["tankerkoenig"]`: the station list, its
length, and an error string that is present only on the exception path
of `async_fetch_data` (lines 108-114). -/
structure ProviderEntry where
  stations : List JVal
  count : Nat
  error : Option String

/-- The coordinator state dictionary `self._state` (coordinator.py,
lines 39-46).  Only the tankerkoenig key of the providers dictionary is
ever written, so the providers dictionary is its optional entry. -/
structure CoordState where
  vehicles : JVal
  forecasts : JVal
  refuelEvents : JVal
  providers : Option ProviderEntry
  lastUpdate : Option Nat
  config : List (String × JVal)

/-- The snapshot dictionary built at the end of `async_fetch_data`
(lines 123-130); it carries the same six entries as the state. -/
structure Snapshot where
  vehicles : JVal
  forecasts : JVal
  refuelEvents : JVal
  providers : Option ProviderEntry
  lastUpdate : Option Nat
  config : List (String × JVal)

/-- Building the snapshot dictionary from the current state. -/
def snapshotOf (st : CoordState) : Snapshot :=
  ⟨st.vehicles, st.forecasts, st.refuelEvents, st.providers, st.lastUpdate,
    st.config⟩

/-- The initial `self._state` of `__init__` (lines 39-46): empty
dictionaries, no provider entry, no timestamp, empty config. -/
def initState : CoordState :=
  ⟨.dict [], .dict [], .arr [], none, none, []⟩

/-- Config resolution in `async_fetch_data` (line 82): the runtime
value, or on a falsy runtime value the entry-data value
(`config.get("latitude") or self.entry.data.get(CONF_LATITUDE)`). -/
def resolvedLatitude (cfg entryData : List (String × JVal)) : JVal :=
  pyOr (pyGet cfg "latitude") (pyGet entryData "latitude")

/-- Config resolution in `async_fetch_data` (line 83) for the
longitude, with the same falsy-fallback shape. -/
def resolvedLongitude (cfg entryData : List (String × JVal)) : JVal :=
  pyOr (pyGet cfg "longitude") (pyGet entryData "longitude")

/-- Config resolution in `async_fetch_data` (line 84): the runtime
radius, or `self.entry.data.get(CONF_RADIUS, 5)` when falsy. -/
def resolvedRadius (cfg entryData : List (String × JVal)) : JVal :=
  pyOr (pyGet cfg "radius") (pyGetD entryData "radius" (.num 5))

/-- Config resolution in `async_fetch_data` (line 85): the runtime fuel
type, or `self.entry.data.get(CONF_FUEL_TYPE, DEFAULT_FUEL_TYPE)` with
default e5 when falsy. -/
def resolvedFuelType (cfg entryData : List (String × JVal)) : JVal :=
  pyOr (pyGet cfg "fuel_type") (pyGetD entryData "fuel_type" (.str "e5"))

/-- Can Python `float(v)` succeed on the value.  Numbers and booleans
convert; `None` and structured values raise.  Numeric strings, which
`float` would parse, are modelled as failing conversions — no claim or
concrete input in this development uses string-typed coordinates. -/
def convFloatOk : JVal → Bool
  | .num _ => true
  | .bool _ => true
  | _ => false

/-- Can Python `int(v)` succeed on the value (same modelling note as
`convFloatOk`). -/
def convIntOk : JVal → Bool
  | .num _ => true
  | .bool _ => true
  | _ => false

/-- Result of one run of `async_fetch_data`: the updated state, the
returned snapshot, and whether the provider fetch was actually invoked
(observable network call). -/
structure FetchResult where
  state : CoordState
  snap : Snapshot
  fetched : Bool

/-- Embedding of `FwcamDataUpdateCoordinator.async_fetch_data`
(coordinator.py, lines 62-132) for one cycle.  Inputs: the previous
state, the runtime config from hass.data, the config-entry data,
whether the provider was constructed (truthy API key at init), the HTTP
outcome the environment would deliver if the fetch is made, and the
cycle timestamp.  The fetch runs only when the provider exists and both
resolved coordinates are not `None`; a failing `float`/`int` conversion
is caught by the except branch of lines 108-114, which stores an empty
entry with an error message (the source stores `str(err)`; the model
uses a fixed non-empty message, and no claim inspects its wording). -/
def asyncFetchData (st : CoordState) (cfg entryData : List (String × JVal))
    (hasProvider : Bool) (hr : HttpResult) (now : Nat) : FetchResult :=
  let st0 := { st with config := cfg }
  let step :
      CoordState × Bool :=
    if hasProvider then
      let lat := resolvedLatitude cfg entryData
      let lng := resolvedLongitude cfg entryData
      let rad := resolvedRadius cfg entryData
      if !lat.isNull && !lng.isNull then
        if convFloatOk lat && convFloatOk lng && convIntOk rad then
          let stations := fetchStations hr
          ({ st0 with providers := some ⟨stations, stations.length, none⟩ }, true)
        else
          ({ st0 with
              providers := some ⟨[], 0, some "invalid configuration value"⟩ },
            false)
      else (st0, false)
    else (st0, false)
  let st1 := { step.1 with lastUpdate := some now }
  ⟨st1, snapshotOf st1, step.2⟩

/-- How one refresh cycle ends at the `_async_update_data` boundary:
the inner fetch completes (with some HTTP outcome), the 30-second
overall timeout fires, or an unexpected fault escapes. -/
inductive CycleOutcome where
  | completes (hr : HttpResult)
  | timeout
  | unexpected

/-- The Home Assistant side of the coordinator: the published snapshot
`self.data` (None before the first successful refresh), the
`last_update_success` flag, whether the provider was constructed, and
the internal state dictionary. -/
structure HAState where
  data : Option Snapshot
  lastUpdateSuccess : Bool
  hasProvider : Bool
  internal : CoordState

/-- Constructor model (`__init__`, lines 32-50): no published data yet,
`last_update_success` starts true, and the provider exists exactly when
the API key read from the entry data is truthy
(`TankerkoenigProvider(api_key) if api_key else None`; const.py does
not actually define the imported key constant, so its string name is a
modelling choice that no claim depends on). -/
def initHA (entryData : List (String × JVal)) : HAState :=
  ⟨none, true,
    truthy (pyGetD entryData "tankerkoenig_api_key" (.str "")), initState⟩

/-- Environment of one scheduled refresh: the runtime config, the entry
data, the tick timestamp, and how the cycle ends. -/
structure CycleEnv where
  cfg : List (String × JVal)
  entryData : List (String × JVal)
  now : Nat
  outcome : CycleOutcome

/-- Is the cycle outcome one of the failure outcomes that raise
`UpdateFailed`. -/
def CycleOutcome.isFailure : CycleOutcome → Bool
  | .completes _ => false
  | .timeout => true
  | .unexpected => true

/-- One scheduled refresh through `_async_update_data` (lines 52-60)
plus the `DataUpdateCoordinator` bookkeeping: on completion the
returned snapshot is published and the cycle is marked successful; on
timeout the coroutine is cancelled at its only suspension point (the
provider call), after the config write of line 77, and `UpdateFailed`
keeps the published data; an unexpected fault likewise raises
`UpdateFailed` and keeps the published data. -/
def refreshStep (ha : HAState) (env : CycleEnv) : HAState :=
  match env.outcome with
  | .completes hr =>
    let r := asyncFetchData ha.internal env.cfg env.entryData ha.hasProvider hr env.now
    { ha with
        data := some r.snap
        lastUpdateSuccess := true
        internal := r.state }
  | .timeout =>
    { ha with
        internal := { ha.internal with config := env.cfg }
        lastUpdateSuccess := false }
  | .unexpected => { ha with lastUpdateSuccess := false }

/-- Running a sequence of refresh cycles from a fresh coordinator. -/
def run (entryData : List (String × JVal)) (envs : List CycleEnv) : HAState :=
  envs.foldl refreshStep (initHA entryData)

/-- Embedding of the synchronous accessor `snapshot` (lines 134-136),
`self.data or self._state`: the published snapshot when one exists
(snapshot dictionaries always carry six keys, hence are truthy),
otherwise the state dictionary. -/
def snapshotAcc (ha : HAState) : Snapshot :=
  match ha.data with
  | some d => d
  | none => snapshotOf ha.internal

/-!
Sensor model (sensors/station_sensor.py, `_handle_coordinator_update`,
lines 63-154): the consumer that reads the snapshot, runs the
selection, and displays the result.
-/

/-- The station list the sensor extracts from the snapshot:
`snapshot.get("providers", {}).get("tankerkoenig", {}).get("stations", [])`. -/
def stationsOf (snap : Snapshot) : List JVal :=
  match snap.providers with
  | some e => e.stations
  | none => []

/-- The fuel type the sensor reads from the snapshot config,
`config.get("fuel_type", "e5")`.  The stored value is modelled as a
string (a non-string stored value, which Python would carry along as an
inert dictionary key, is folded to the default; no claim stores a
non-string fuel type). -/
def sensorFuelType (snap : Snapshot) : String :=
  match lookup snap.config "fuel_type" with
  | some (.str s) => s
  | _ => "e5"

/-- The display name of a station, `best_station.get("name", "Unknown
Station")` (non-string names are folded to the default; no claim stores
one). -/
def stationName (station : JVal) : String :=
  match station with
  | .dict fields =>
    match lookup fields "name" with
    | some (.str s) => s
    | _ => "Unknown Station"
  | _ => "Unknown Station"

/-- Replacing the station list inside the snapshot; this is how the
in-place mutation of the station dictionaries shows up in the
value-passing embedding. -/
def setStations (snap : Snapshot) (stations : List JVal) : Snapshot :=
  { snap with
      providers :=
        match snap.providers with
        | some e => some { e with stations := stations }
        | none => none }

/-- Embedding of `FwcamStationSensor._handle_coordinator_update`: the
sensor state string together with the snapshot as it stands after the
call (the selection loop writes selected_fuel_type / selected_price
into winning station dictionaries of the published snapshot, which the
returned snapshot reflects).  The error case is a TypeError escaping
the handler. -/
def handleUpdate (snap : Snapshot) : Except Unit (String × Snapshot) :=
  let stations := stationsOf snap
  if stations.isEmpty then .ok ("No stations available", snap)
  else
    match selectLoop stations (sensorFuelType snap) with
    | .error e => .error e
    | .ok (some (i, _, _), muts) =>
      .ok (stationName (muts.getD i .null), setStations snap muts)
    | .ok (none, muts) => .ok ("No valid prices found", setStations snap muts)

/-- The recommendation a consumer observes through the sensor: the name
of the winning station and the winning price, or `none` when there are
no stations, no usable price, or a selection error. -/
def recommendationOf (snap : Snapshot) : Option (String × ℚ) :=
  let stations := stationsOf snap
  if stations.isEmpty then none
  else
    match selectLoop stations (sensorFuelType snap) with
    | .ok (some (i, _, q), muts) => some (stationName (muts.getD i .null), q)
    | _ => none

/-!
Concrete inputs.  Rational constants are built from raw numerator and
denominator so that kernel evaluation never has to normalise (the
library normalisation goes through a gcd that does not reduce
definitionally); bridge lemmas identify them with the decimal literals
of the specification.
-/

/-- Building a rational from an already-reduced fraction. -/
def qv (n : ℤ) (d : ℕ) (h : d ≠ 0) (h2 : n.natAbs.Coprime d) : ℚ :=
  ⟨n, d, h, h2⟩

/-- The price 1.80 of the specification example. -/
def price180 : ℚ := qv 9 5 (by norm_num) (by norm_num [Nat.Coprime])

/-- The price 1.60 of the specification example. -/
def price160 : ℚ := qv 8 5 (by norm_num) (by norm_num [Nat.Coprime])

/-- The price 1.75 of the specification example. -/
def price175 : ℚ := qv 7 4 (by norm_num) (by norm_num [Nat.Coprime])

/-- A price of 1.50. -/
def price150 : ℚ := qv 3 2 (by norm_num) (by norm_num [Nat.Coprime])

/-- A strictly negative price of -0.50. -/
def priceNeg : ℚ := qv (-1) 2 (by norm_num) (by norm_num [Nat.Coprime])

/-- Station A of the specification example: e5 at 1.80. -/
def stationA : JVal :=
  .dict [("id", .str "a"), ("name", .str "A"), ("brand", .str "X"),
    ("lat", .num 50), ("lng", .num 8),
    ("price", .dict [("e5", .num price180)])]

/-- Station B of the specification example: diesel at 1.60. -/
def stationB : JVal :=
  .dict [("id", .str "b"), ("name", .str "B"), ("brand", .str "Y"),
    ("lat", .num 50), ("lng", .num 8),
    ("price", .dict [("diesel", .num price160)])]

/-- Station C of the specification example: e10 at 1.75. -/
def stationC : JVal :=
  .dict [("id", .str "c"), ("name", .str "C"), ("brand", .str "Z"),
    ("lat", .num 50), ("lng", .num 8),
    ("price", .dict [("e5", .null), ("e10", .num price175)])]

/-- The specification example station list. -/
def exampleStations : List JVal := [stationA, stationB, stationC]

/-- A station whose diesel price is strictly negative (and whose e5
price is valid, so the record passes validation). -/
def stationNeg : JVal :=
  .dict [("id", .str "n"), ("name", .str "N"), ("brand", .str "X"),
    ("lat", .num 50), ("lng", .num 8),
    ("price", .dict [("e5", .num price150), ("diesel", .num priceNeg)])]

/-- A station whose e5 price is a truthy non-numeric string. -/
def stationStr : JVal :=
  .dict [("id", .str "s"), ("name", .str "S"), ("brand", .str "X"),
    ("lat", .num 50), ("lng", .num 8),
    ("price", .dict [("e5", .str "cheap")])]

/-- A successful provider response carrying station A. -/
def exampleBody : JVal :=
  .dict [("ok", .bool true), ("data", .dict [("stations", .arr [stationA])])]

/-- Entry data with an API key and coordinates. -/
def exampleEntry : List (String × JVal) :=
  [("tankerkoenig_api_key", .str "key"), ("latitude", .num 50),
    ("longitude", .num 8)]

/-- Cycle 1: the provider answers 200/ok with station A. -/
def exampleEnvOk : CycleEnv :=
  ⟨[], exampleEntry, 1, .completes (.response 200 exampleBody)⟩

/-- Cycle 2: the provider transport fails. -/
def exampleEnvDown : CycleEnv :=
  ⟨[], exampleEntry, 2, .completes (.transportError "connection refused")⟩

/-- Coordinator after the successful first cycle. -/
def haAfterOk : HAState := refreshStep (initHA exampleEntry) exampleEnvOk

/-- Coordinator after the successful first cycle and then a cycle whose
transport failed. -/
def haAfterDown : HAState := refreshStep haAfterOk exampleEnvDown

/-!
Analysis definitions (proof side, written from the wording of the
specification, to be related to the embedded code).
-/

/-- One comparison step of the specification selector: replace the
current best exactly when the probe price is strictly below it (an
empty best counts as infinity). -/
def upd (best : Option Probe) (t : Probe) : Option Probe :=
  if betterThan t.2.2 best then some t else best

/-- The specification selection rule: the strict minimum over a probe
sequence, the earlier probe winning on exact price ties. -/
def firstMin : List Probe → Option Probe
  | [] => none
  | t :: ts =>
    match firstMin ts with
    | none => some t
    | some u => if u.2.2 < t.2.2 then some u else some t

/-- Combining a best found earlier with the best of a later segment;
the earlier one wins exact ties. -/
def mergeBest (b : Option Probe) : Option Probe → Option Probe
  | none => b
  | some u =>
    match b with
    | none => some u
    | some t => if u.2.2 < t.2.2 then some u else some t

/-- The radius clamp claimed by the specification data model: into the
closed interval from 1 to 25. -/
def specClampRadius (radius : ℤ) : ℤ :=
  max 1 (min radius 25)

/-- The validity predicate in the words of the specification: a
structured mapping, holding a price sub-mapping with at least one of
e5/e10/diesel present, numeric and strictly positive, and holding all
five identity fields. -/
def SpecValidStation (record : JVal) : Prop :=
  ∃ fields, record = .dict fields ∧
    (∃ priceFields, lookup fields "price" = some (.dict priceFields) ∧
      ∃ kind ∈ fuelKinds, ∃ v, lookup priceFields kind = some v ∧
        isNumericPy v = true ∧ 0 < numValPy v) ∧
    (∀ k ∈ requiredFields, (lookup fields k).isSome)

/-- Observable used to exhibit the in-place mutation: does the first
station dictionary of the snapshot carry the selected_fuel_type key. -/
def hasSelectedKey (snap : Snapshot) : Bool :=
  match stationsOf snap with
  | (.dict fields) :: _ => (lookup fields "selected_fuel_type").isSome
  | _ => false

/-- The provider entry the coordinator stores for a cycle whose fetch
call completed (coordinator.py, lines 101-104): the returned station
list and its count; no error key is written on this path. -/
def providerEntryOf (hr : HttpResult) : ProviderEntry :=
  ⟨fetchStations hr, (fetchStations hr).length, none⟩

/-- A published snapshot holding the specification example stations and
an all fuel-type request. -/
def exampleSnapshot : Snapshot :=
  ⟨.dict [], .dict [], .arr [], some ⟨exampleStations, 3, none⟩, some 1,
    [("fuel_type", .str "all")]⟩

/-- A record whose price mapping has every fuel kind zero, null, or
missing. -/
def stationZeroPrices : JVal :=
  .dict [("id", .str "z"), ("name", .str "Z"), ("brand", .str "X"),
    ("lat", .num 50), ("lng", .num 8),
    ("price", .dict [("e5", .num 0), ("e10", .null)])]

/-- A record carrying all five identity keys with `None` values and one
valid price. -/
def stationNullIds : JVal :=
  .dict [("id", .null), ("name", .null), ("brand", .null),
    ("lat", .null), ("lng", .null),
    ("price", .dict [("e10", .num price150)])]

/-- The station list after the selection pass over `[stationNeg]` for
diesel: the winning station carries the selected keys. -/
def stationNegMut : List JVal := mutateAt [stationNeg] 0 "diesel" priceNeg

/-- The station list after the selection pass over the example stations
for the all request: first A wins on e5, then B wins on diesel; both
retain their selected keys. -/
def exampleStationsMut : List JVal :=
  mutateAt (mutateAt exampleStations 0 "e5" price180) 1 "diesel" price160

/-!
Helper theorems.
-/

theorem qv_eq_div (n : ℤ) (d : ℕ) (h : d ≠ 0) (h2 : n.natAbs.Coprime d) :
    qv n d h h2 = (n : ℚ) / (d : ℚ) := by
  rw [show qv n d h h2 = Rat.mk' n d h h2 from rfl, Rat.mk'_eq_divInt,
    Rat.divInt_eq_div]
  norm_num

theorem price180_eq : price180 = 1.80 := by
  rw [show price180 = qv 9 5 (by norm_num) (by norm_num [Nat.Coprime]) from rfl,
    qv_eq_div]
  norm_num

theorem price160_eq : price160 = 1.60 := by
  rw [show price160 = qv 8 5 (by norm_num) (by norm_num [Nat.Coprime]) from rfl,
    qv_eq_div]
  norm_num

theorem price175_eq : price175 = 1.75 := by
  rw [show price175 = qv 7 4 (by norm_num) (by norm_num [Nat.Coprime]) from rfl,
    qv_eq_div]
  norm_num

theorem priceNeg_eq : priceNeg = -0.5 := by
  rw [show priceNeg = qv (-1) 2 (by norm_num) (by norm_num [Nat.Coprime]) from rfl,
    qv_eq_div]
  norm_num

theorem selectGo_ok_best (stations : List JVal) :
    ∀ (ps : List (Nat × String)) (best : Option Probe) (muts muts' : List JVal)
      (best' : Option Probe),
      selectGo stations ps best muts = .ok (best', muts') →
      best' = (usableOf stations ps).foldl upd best := by
  intro ps
  induction ps with
  | nil =>
    intro best muts muts' best' h
    simp only [selectGo, Except.ok.injEq, Prod.mk.injEq] at h
    simp [usableOf, h.1.symm]
  | cons p rest ih =>
    rcases p with ⟨i, k⟩
    intro best muts muts' best' h
    simp only [selectGo] at h
    cases hpv : probeVal stations i k with
    | error e =>
      rw [hpv] at h
      exact absurd h (by simp)
    | ok o =>
      rw [hpv] at h
      cases o with
      | none =>
        simp only at h
        have := ih best muts muts' best' h
        simpa [usableOf, hpv] using this
      | some q =>
        simp only at h
        by_cases hb : betterThan q best = true
        · rw [if_pos hb] at h
          have := ih (some (i, k, q)) (mutateAt muts i k q) muts' best' h
          simp only [usableOf, List.filterMap_cons, hpv] at this ⊢
          rw [this]
          simp [upd, hb]
        · rw [if_neg hb] at h
          have := ih best muts muts' best' h
          simp only [usableOf, List.filterMap_cons, hpv] at this ⊢
          rw [this]
          simp [upd, hb]

theorem firstMin_eq_none {l : List Probe} (h : firstMin l = none) : l = [] := by
  cases l with
  | nil => rfl
  | cons a rest =>
    exfalso
    revert h
    simp only [firstMin]
    cases firstMin rest with
    | none => simp
    | some u =>
      split
      · simp
      · split <;> simp

theorem foldl_upd_eq_mergeBest :
    ∀ (l : List Probe) (b : Option Probe),
      l.foldl upd b = mergeBest b (firstMin l) := by
  intro l
  induction l with
  | nil => intro b; simp [firstMin, mergeBest]
  | cons t ts ih =>
    intro b
    rw [List.foldl_cons, ih (upd b t)]
    cases hm : firstMin ts with
    | none =>
      have hts : ts = [] := firstMin_eq_none hm
      subst hts
      simp only [firstMin, mergeBest, upd]
      cases b with
      | none => simp [betterThan]
      | some bb =>
        rcases bb with ⟨bi, bk, bq⟩
        simp only [betterThan, mergeBest]
        by_cases hlt : t.2.2 < bq
        · simp [hlt]
        · simp [hlt]
    | some u =>
      simp only [firstMin, hm, mergeBest]
      cases b with
      | none =>
        simp only [upd, betterThan, if_pos, mergeBest]
        by_cases hut : u.2.2 < t.2.2
        · simp [hut]
        · simp [hut]
      | some bb =>
        rcases bb with ⟨bi, bk, bq⟩
        simp only [upd, betterThan, mergeBest]
        by_cases hut : u.2.2 < t.2.2 <;> by_cases htb : t.2.2 < bq <;>
          by_cases hub : u.2.2 < bq <;>
          simp [hut, htb, hub, mergeBest] <;> exfalso <;> linarith

theorem firstMin_mem :
    ∀ {l : List Probe} {t : Probe}, firstMin l = some t → t ∈ l := by
  intro l
  induction l with
  | nil => intro t h; simp [firstMin] at h
  | cons a rest ih =>
    intro t h
    simp only [firstMin] at h
    split at h
    · simp only [Option.some.injEq] at h
      subst h
      exact List.mem_cons_self a rest
    · rename_i u heq
      split at h <;> simp only [Option.some.injEq] at h <;> subst h
      · exact List.mem_cons_of_mem a (ih heq)
      · exact List.mem_cons_self a rest

theorem firstMin_le :
    ∀ {l : List Probe} {t : Probe}, firstMin l = some t →
      ∀ u ∈ l, t.2.2 ≤ u.2.2 := by
  intro l
  induction l with
  | nil => intro t h; simp [firstMin] at h
  | cons a rest ih =>
    intro t h u hu
    simp only [firstMin] at h
    split at h
    · rename_i heq
      have hrest : rest = [] := firstMin_eq_none heq
      subst hrest
      simp only [Option.some.injEq] at h
      subst h
      simp only [List.mem_singleton] at hu
      simp [hu]
    · rename_i v heq
      split at h <;> simp only [Option.some.injEq] at h <;> subst h
      · rename_i hlt
        rcases List.mem_cons.mp hu with rfl | hu2
        · exact le_of_lt hlt
        · exact ih heq u hu2
      · rename_i hnlt
        rcases List.mem_cons.mp hu with rfl | hu2
        · exact le_rfl
        · exact le_trans (not_lt.mp hnlt) (ih heq u hu2)

theorem firstMin_first :
    ∀ {l : List Probe} {t : Probe}, firstMin l = some t →
      ∃ l₁ l₂, l = l₁ ++ t :: l₂ ∧ ∀ u ∈ l₁, t.2.2 < u.2.2 := by
  intro l
  induction l with
  | nil => intro t h; simp [firstMin] at h
  | cons a rest ih =>
    intro t h
    simp only [firstMin] at h
    split at h
    · simp only [Option.some.injEq] at h
      subst h
      exact ⟨[], rest, rfl, by simp⟩
    · rename_i v heq
      split at h <;> simp only [Option.some.injEq] at h <;> subst h
      · rename_i hlt
        rcases ih heq with ⟨l₁, l₂, hsplit, hgt⟩
        refine ⟨a :: l₁, l₂, by simp [hsplit], ?_⟩
        intro u hu
        rcases List.mem_cons.mp hu with rfl | hu2
        · exact hlt
        · exact hgt u hu2
      · exact ⟨[], rest, rfl, by simp⟩

theorem mem_usableOf {stations : List JVal} {ps : List (Nat × String)}
    {i : Nat} {k : String} {q : ℚ} (h : (i, k, q) ∈ usableOf stations ps) :
    (i, k) ∈ ps ∧ probeVal stations i k = .ok (some q) := by
  rcases List.mem_filterMap.mp h with ⟨p, hp, heq⟩
  rcases p with ⟨j, k2⟩
  cases hpv : probeVal stations j k2 with
  | error e => rw [hpv] at heq; simp at heq
  | ok o =>
    rw [hpv] at heq
    cases o with
    | none => simp at heq
    | some q2 =>
      simp only [Option.some.injEq, Prod.mk.injEq] at heq
      obtain ⟨rfl, rfl, rfl⟩ := heq
      exact ⟨hp, hpv⟩

theorem truthy_asNum_ne_zero {price : JVal} {q : ℚ}
    (ht : truthy price = true) (ha : asNum price = some q) : q ≠ 0 := by
  cases price with
  | num q2 =>
    simp only [asNum, Option.some.injEq] at ha
    subst ha
    simpa [truthy] using ht
  | bool b =>
    simp only [truthy] at ht
    subst ht
    simp only [asNum, if_true] at ha
    simp only [Option.some.injEq] at ha
    subst ha
    norm_num
  | null => simp [truthy] at ht
  | str s => simp [asNum] at ha
  | arr items => simp [asNum] at ha
  | dict fields => simp [asNum] at ha

theorem probeVal_ok_ne_zero {stations : List JVal} {i : Nat} {k : String}
    {q : ℚ} (h : probeVal stations i k = .ok (some q)) : q ≠ 0 := by
  unfold probeVal at h
  split at h
  · exact absurd h (by simp)
  · rename_i price
    split at h
    · rename_i ht
      split at h
      · rename_i q2 ha
        simp only [Except.ok.injEq, Option.some.injEq] at h
        subst h
        exact truthy_asNum_ne_zero ht ha
      · exact absurd h (by simp)
    · simp at h

theorem selectLoop_firstMin {stations : List JVal} {fuelType : String}
    {r : Option Probe} {muts : List JVal}
    (h : selectLoop stations fuelType = .ok (r, muts)) :
    r = firstMin (usableProbes stations fuelType) := by
  have h1 := selectGo_ok_best stations _ none stations muts r h
  rw [show usableOf stations (probeList stations.length fuelType) =
      usableProbes stations fuelType from rfl] at h1
  rw [h1, foldl_upd_eq_mergeBest]
  cases firstMin (usableProbes stations fuelType) with
  | none => simp [mergeBest]
  | some u => simp [mergeBest]

theorem validPriceEntry_iff (priceFields : List (String × JVal)) (kind : String) :
    validPriceEntry priceFields kind = true ↔
      ∃ v, lookup priceFields kind = some v ∧ isNumericPy v = true ∧
        0 < numValPy v := by
  unfold validPriceEntry
  cases h : lookup priceFields kind with
  | none => simp
  | some v => simp [h, Bool.and_eq_true, decide_eq_true_eq]

theorem validate_station_iff (record : JVal) :
    validate_station record = true ↔ SpecValidStation record := by
  cases record with
  | dict fields =>
    simp only [validate_station]
    cases hp : lookup fields "price" with
    | none =>
      simp only [SpecValidStation, JVal.dict.injEq]
      constructor
      · intro h; simp at h
      · rintro ⟨f2, rfl, ⟨pf, hpf, _⟩, _⟩
        rw [hp] at hpf
        simp at hpf
    | some v =>
      cases v with
      | dict priceFields =>
        show (if (fuelKinds.any fun kind => validPriceEntry priceFields kind) = true
            then requiredFields.all fun k => (lookup fields k).isSome
            else false) = true ↔ SpecValidStation (.dict fields)
        by_cases hany : (fuelKinds.any fun kind =>
            validPriceEntry priceFields kind) = true
        · rw [if_pos hany]
          rcases List.any_eq_true.mp hany with ⟨kind, hkind, hvp⟩
          rcases (validPriceEntry_iff priceFields kind).mp hvp with
            ⟨v, hv, hnum, hpos⟩
          constructor
          · intro hall
            exact ⟨fields, rfl, ⟨priceFields, hp, kind, hkind, v, hv, hnum, hpos⟩,
              fun k hk => List.all_eq_true.mp hall k hk⟩
          · rintro ⟨f2, hf2, _, hids⟩
            injection hf2 with hf2
            subst hf2
            exact List.all_eq_true.mpr fun k hk => hids k hk
        · rw [if_neg hany]
          constructor
          · intro h; simp at h
          · rintro ⟨f2, hf2, ⟨pf, hpf, kind, hkind, v, hv, hnum, hpos⟩, _⟩
            injection hf2 with hf2
            subst hf2
            rw [hp] at hpf
            injection hpf with hpf
            injection hpf with hpf
            subst hpf
            exact absurd (List.any_eq_true.mpr
              ⟨kind, hkind, (validPriceEntry_iff _ kind).mpr ⟨v, hv, hnum, hpos⟩⟩)
              hany
      | null =>
        constructor
        · intro h; simp at h
        · rintro ⟨f2, hf2, ⟨pf, hpf, _⟩, _⟩
          injection hf2 with hf2
          subst hf2
          rw [hp] at hpf
          simp at hpf
      | bool b =>
        constructor
        · intro h; simp at h
        · rintro ⟨f2, hf2, ⟨pf, hpf, _⟩, _⟩
          injection hf2 with hf2
          subst hf2
          rw [hp] at hpf
          simp at hpf
      | num q =>
        constructor
        · intro h; simp at h
        · rintro ⟨f2, hf2, ⟨pf, hpf, _⟩, _⟩
          injection hf2 with hf2
          subst hf2
          rw [hp] at hpf
          simp at hpf
      | str s =>
        constructor
        · intro h; simp at h
        · rintro ⟨f2, hf2, ⟨pf, hpf, _⟩, _⟩
          injection hf2 with hf2
          subst hf2
          rw [hp] at hpf
          simp at hpf
      | arr items =>
        constructor
        · intro h; simp at h
        · rintro ⟨f2, hf2, ⟨pf, hpf, _⟩, _⟩
          injection hf2 with hf2
          subst hf2
          rw [hp] at hpf
          simp at hpf
  | null => simp [validate_station, SpecValidStation]
  | bool b => simp [validate_station, SpecValidStation]
  | num q => simp [validate_station, SpecValidStation]
  | str s => simp [validate_station, SpecValidStation]
  | arr items => simp [validate_station, SpecValidStation]

/-!
Claim theorems.
-/

/-- C6, counterexample: the claim says the radius passed to the
transport is the request clamped into the interval from 1 to 25, with
requests below 1 raised to 1.  At the concrete request 0 the code
passes 0 (it only applies `min(radius, 25)`), not the claimed clamp
value 1. -/
theorem C6_counterexample :
    effectiveRadius 0 = 0 ∧ specClampRadius 0 = 1 ∧
      effectiveRadius 0 ≠ specClampRadius 0 := by
  refine ⟨rfl, rfl, ?_⟩
  decide

/-- C6, amended: the radius actually passed to the provider transport
is `min(requested, 25)`; requests above 25 are lowered to 25, but
requests at or below 25 (including values below 1) pass through
unchanged — there is no lower clamp. -/
theorem C6_radius_min_only (radius : ℤ) :
    effectiveRadius radius = min radius 25 ∧
      effectiveRadius radius ≤ 25 ∧
      (25 < radius → effectiveRadius radius = 25) ∧
      (radius ≤ 25 → effectiveRadius radius = radius) := by
  refine ⟨rfl, min_le_right _ _, fun h => ?_, fun h => ?_⟩
  · simpa [effectiveRadius] using le_of_lt h
  · simpa [effectiveRadius] using h

/-- C6, witness: the amended theorem applied at radius 30 and at
radius 3. -/
theorem C6_witness :
    effectiveRadius 30 = 25 ∧ effectiveRadius 3 = 3 :=
  ⟨(C6_radius_min_only 30).2.2.1 (by norm_num),
    (C6_radius_min_only 3).2.2.2 (by norm_num)⟩

/-- C3, counterexample: the claim says a transport failure yields a
provider result with empty stations and a populated error message.  At
the concrete transport failure the fetch returns the bare empty list
and the provider entry the coordinator stores on this path carries no
error message at all (the message is only logged). -/
theorem C3_counterexample :
    fetchStations (.transportError "connection refused") = [] ∧
      providerEntryOf (.transportError "connection refused") = ⟨[], 0, none⟩ ∧
      (providerEntryOf (.transportError "connection refused")).error = none :=
  ⟨rfl, rfl, rfl⟩

/-- C3, amended: on a transport failure, a non-200 status, or a falsy
top-level ok flag, the fetch returns an empty station list and never
raises past the fetch boundary (the embedding is a total function); the
error is logged but not present in the returned result, and the
provider entry stored for a completed fetch carries no error message. -/
theorem C3_fetch_failures_empty :
    (∀ msg, fetchStations (.transportError msg) = []) ∧
      (∀ status body, status ≠ 200 → fetchStations (.response status body) = []) ∧
      (∀ bodyFields, truthy (pyGet bodyFields "ok") = false →
        fetchStations (.response 200 (.dict bodyFields)) = []) ∧
      (∀ hr, (providerEntryOf hr).error = none) := by
  refine ⟨fun msg => rfl, fun status body h => ?_, fun bodyFields h => ?_,
    fun hr => rfl⟩
  · simp [fetchStations, h]
  · simp [fetchStations, h]

/-- C3, witness: the amended theorem applied to a 500 response and to
an ok-false response. -/
theorem C3_witness :
    fetchStations (.response 500 .null) = [] ∧
      fetchStations (.response 200 (.dict [("ok", .bool false)])) = [] :=
  ⟨C3_fetch_failures_empty.2.1 500 .null (by norm_num),
    C3_fetch_failures_empty.2.2.1 [("ok", .bool false)] (by decide)⟩

/-- C7: `validate_station` returns true exactly when the record is a
mapping with a price sub-mapping holding at least one of e5, e10,
diesel present, numeric (in the Python sense, which includes booleans
as a subtype of int) and strictly positive, and with all five identity
keys present; in particular a record whose price mapping has every fuel
kind zero or worse is rejected. -/
theorem C7_validate_station_spec :
    (∀ record, validate_station record = true ↔ SpecValidStation record) ∧
      (∀ fields priceFields,
        lookup fields "price" = some (.dict priceFields) →
        (∀ kind ∈ fuelKinds, validPriceEntry priceFields kind = false) →
        validate_station (.dict fields) = false) := by
  refine ⟨validate_station_iff, fun fields priceFields hp hbad => ?_⟩
  by_contra hne
  have htrue : validate_station (.dict fields) = true := by
    cases h : validate_station (.dict fields) with
    | false => exact absurd h hne
    | true => rfl
  rcases (validate_station_iff _).mp htrue with
    ⟨f2, hf2, ⟨pf, hpf, kind, hkind, v, hv, hnum, hpos⟩, _⟩
  injection hf2 with hf2
  subst hf2
  rw [hp] at hpf
  injection hpf with hpf
  injection hpf with hpf2
  subst hpf2
  have := hbad kind hkind
  rw [(validPriceEntry_iff _ kind).mpr ⟨v, hv, hnum, hpos⟩] at this
  exact Bool.noConfusion this

/-- C7, witness: the equivalence applied to station A (accepted) and
the rejection part applied to a record whose prices are all zero, null,
or missing. -/
theorem C7_witness :
    SpecValidStation stationA ∧
      validate_station stationZeroPrices = false :=
  ⟨(C7_validate_station_spec.1 stationA).mp rfl,
    C7_validate_station_spec.2 _ _ rfl (by decide)⟩

/-- C9: the identity fields are checked for key presence only; any
record that is a mapping carrying the five identity keys with arbitrary
values and whose price mapping has at least one numeric price strictly
greater than 0 is accepted. -/
theorem C9_identity_presence_only
    (fields priceFields : List (String × JVal)) (kind : String) (v : JVal)
    (hp : lookup fields "price" = some (.dict priceFields))
    (hkind : kind ∈ fuelKinds)
    (hv : lookup priceFields kind = some v)
    (hnum : isNumericPy v = true)
    (hpos : 0 < numValPy v)
    (hids : ∀ k ∈ requiredFields, (lookup fields k).isSome) :
    validate_station (.dict fields) = true :=
  (validate_station_iff _).mpr
    ⟨fields, rfl, ⟨priceFields, hp, kind, hkind, v, hv, hnum, hpos⟩, hids⟩

/-- C9, witness: the theorem applied to a record whose five identity
keys are all present with `None` values. -/
theorem C9_witness : validate_station stationNullIds = true :=
  C9_identity_presence_only
    [("id", .null), ("name", .null), ("brand", .null), ("lat", .null),
      ("lng", .null), ("price", .dict [("e10", .num price150)])]
    [("e10", .num price150)] "e10" (.num price150)
    rfl (by decide) rfl rfl (by decide) (by decide)

/-- C4, counterexample: the claim says a price entry less than or equal
to 0 is never selected and a non-numeric entry never causes an error.
On the concrete station whose diesel price is -0.5 the selector picks
that station at the negative price (Python truthiness only skips
exactly-zero values), and on the concrete station whose e5 price is a
non-empty string the selector raises a TypeError at the comparison. -/
theorem C4_counterexample :
    (selectLoop [stationNeg] "diesel").map Prod.fst =
        .ok (some (0, "diesel", priceNeg)) ∧
      priceNeg = -0.5 ∧
      selectLoop [stationStr] "e5" = .error () :=
  ⟨rfl, priceNeg_eq, rfl⟩

/-- C4, amended: a price entry that is absent, `None`, or exactly zero
is skipped and never selected; every selected probe carries a present,
truthy, numeric price, which is nonzero but may be negative (and a
truthy non-numeric price raises rather than being skipped, per the
counterexample). -/
theorem C4_no_offer_skipped (stations : List JVal) (fuelType : String)
    (i : Nat) (k : String) (q : ℚ) (muts : List JVal)
    (h : selectLoop stations fuelType = .ok (some (i, k, q), muts)) :
    probeVal stations i k = .ok (some q) ∧ q ≠ 0 := by
  have hfm := selectLoop_firstMin h
  have hmem := firstMin_mem hfm.symm
  have := (mem_usableOf hmem).2
  exact ⟨this, probeVal_ok_ne_zero this⟩

/-- C4, witness: the amended theorem applied to the negative-price
station. -/
theorem C4_witness :
    probeVal [stationNeg] 0 "diesel" = .ok (some priceNeg) ∧ priceNeg ≠ 0 :=
  C4_no_offer_skipped [stationNeg] "diesel" 0 "diesel" priceNeg
    stationNegMut rfl

/-- C5: whenever the selection pass returns a winner, the winner is one
of the usable (station, kind) probes, its price is the minimum over all
usable probes of the flattened scan order (stations in sequence order,
kinds in the fixed order e5, e10, diesel for the all request), and
every usable probe strictly earlier in that order has a strictly larger
price (first wins on exact ties); over the example stations A: e5 at
1.80, B: diesel at 1.60, C: e10 at 1.75 the winner is B at 1.60. -/
theorem C5_selector :
    (∀ (stations : List JVal) (fuelType : String) (i : Nat) (k : String)
      (q : ℚ) (muts : List JVal),
      selectLoop stations fuelType = .ok (some (i, k, q), muts) →
        (i, k, q) ∈ usableProbes stations fuelType ∧
        (∀ u ∈ usableProbes stations fuelType, q ≤ u.2.2) ∧
        (∃ l₁ l₂, usableProbes stations fuelType = l₁ ++ (i, k, q) :: l₂ ∧
          ∀ u ∈ l₁, q < u.2.2)) ∧
      (∀ (stations : List JVal) (fuelType : String) (r : Option Probe)
        (muts : List JVal),
        selectLoop stations fuelType = .ok (r, muts) →
        usableProbes stations fuelType ≠ [] → r ≠ none) ∧
      kindsFor "all" = ["e5", "e10", "diesel"] ∧
      (selectLoop exampleStations "all").map Prod.fst =
        .ok (some (1, "diesel", 1.60)) ∧
      recommendationOf exampleSnapshot = some ("B", 1.60) := by
  refine ⟨?_, ?_, rfl, ?_, ?_⟩
  · intro stations fuelType i k q muts h
    have hfm := (selectLoop_firstMin h).symm
    exact ⟨firstMin_mem hfm, firstMin_le hfm, firstMin_first hfm⟩
  · intro stations fuelType r muts h hne hr
    subst hr
    exact hne (firstMin_eq_none (selectLoop_firstMin h).symm)
  · have h : (selectLoop exampleStations "all").map Prod.fst =
        .ok (some (1, "diesel", price160)) := rfl
    rwa [price160_eq] at h
  · have h : recommendationOf exampleSnapshot = some ("B", price160) := rfl
    rwa [price160_eq] at h

/-- C5, witness: the general part applied to the example selection. -/
theorem C5_witness :
    (1, "diesel", price160) ∈ usableProbes exampleStations "all" :=
  (C5_selector.1 exampleStations "all" 1 "diesel" price160
    exampleStationsMut rfl).1

/-- C1, counterexample: the claim says a transport failure leaves the
previously published recommendation unchanged and marks the cycle
failed.  In the concrete run, after a successful cycle recommending A
at 1.80, a cycle whose provider transport fails completes successfully
(the error is swallowed inside the fetch): the cycle is marked
successful and the published recommendation changes to none. -/
theorem C1_counterexample :
    recommendationOf (snapshotAcc haAfterOk) = some ("A", 1.80) ∧
      recommendationOf (snapshotAcc haAfterDown) = none ∧
      haAfterDown.lastUpdateSuccess = true := by
  refine ⟨?_, rfl, rfl⟩
  have h : recommendationOf (snapshotAcc haAfterOk) = some ("A", price180) := rfl
  rwa [price180_eq] at h

/-- C1, amended: a provider transport failure is absorbed inside the
fetch: the cycle completes successfully and publishes a new snapshot
whose provider entry has an empty station list and no error, replacing
the previous recommendation; only a cycle timeout (or an unexpected
fault) marks the cycle failed, and such a failed cycle retains the
previously published snapshot. -/
theorem C1_transport_failure_absorbed :
    (∀ (ha : HAState) (env : CycleEnv) (msg : String),
      env.outcome = .completes (.transportError msg) →
      ha.hasProvider = true →
      (resolvedLatitude env.cfg env.entryData).isNull = false →
      (resolvedLongitude env.cfg env.entryData).isNull = false →
      convFloatOk (resolvedLatitude env.cfg env.entryData) = true →
      convFloatOk (resolvedLongitude env.cfg env.entryData) = true →
      convIntOk (resolvedRadius env.cfg env.entryData) = true →
      (refreshStep ha env).lastUpdateSuccess = true ∧
        (refreshStep ha env).data.map Snapshot.providers =
          some (some ⟨[], 0, none⟩)) ∧
      (∀ (ha : HAState) (env : CycleEnv), env.outcome = .timeout →
        (refreshStep ha env).data = ha.data ∧
          (refreshStep ha env).lastUpdateSuccess = false) := by
  constructor
  · intro ha env msg hout hp h1 h2 h3 h4 h5
    rcases env with ⟨cfg, ed, now, oc⟩
    simp only at hout h1 h2 h3 h4 h5
    subst hout
    simp [refreshStep, asyncFetchData, snapshotOf, fetchStations, hp,
      h1, h2, h3, h4, h5]
  · intro ha env hout
    rcases env with ⟨cfg, ed, now, oc⟩
    simp only at hout
    subst hout
    exact ⟨rfl, rfl⟩

/-- C1, witness: the amended theorem applied to the concrete
transport-failure cycle and to a concrete timeout cycle. -/
theorem C1_witness :
    ((refreshStep (initHA exampleEntry) exampleEnvDown).lastUpdateSuccess = true ∧
      (refreshStep (initHA exampleEntry) exampleEnvDown).data.map
        Snapshot.providers = some (some ⟨[], 0, none⟩)) ∧
      (refreshStep haAfterOk ⟨[], exampleEntry, 7, .timeout⟩).data =
        haAfterOk.data :=
  ⟨C1_transport_failure_absorbed.1 (initHA exampleEntry) exampleEnvDown
      "connection refused" rfl rfl rfl rfl rfl rfl rfl,
    (C1_transport_failure_absorbed.2 haAfterOk
      ⟨[], exampleEntry, 7, .timeout⟩ rfl).1⟩

/-- C2, counterexample: the claim says no later operation, including a
consumer read, changes a published Snapshot.  On the concrete published
snapshot of the successful cycle, the sensor read writes the
selected_fuel_type key into the winning station dictionary of the
published snapshot: before the read the first station has no such key,
after the read it does. -/
theorem C2_counterexample :
    (handleUpdate (snapshotAcc haAfterOk)).map Prod.fst = .ok "A" ∧
      (handleUpdate (snapshotAcc haAfterOk)).map
        (fun p => hasSelectedKey p.2) = .ok true ∧
      hasSelectedKey (snapshotAcc haAfterOk) = false :=
  ⟨rfl, rfl, rfl⟩

/-- C2, amended: a failed refresh cycle retains the previously
published snapshot unchanged (it is never replaced with an empty or
error snapshot), but a published snapshot is not immutable: a consumer
read by the station sensor writes the selected keys into station
dictionaries of the published snapshot. -/
theorem C2_snapshot_policy :
    (∀ (ha : HAState) (env : CycleEnv), env.outcome.isFailure = true →
      (refreshStep ha env).data = ha.data) ∧
      (handleUpdate exampleSnapshot).map (fun p => hasSelectedKey p.2) =
        .ok true ∧
      hasSelectedKey exampleSnapshot = false := by
  refine ⟨?_, rfl, rfl⟩
  intro ha env h
  rcases env with ⟨cfg, ed, now, oc⟩
  cases oc with
  | completes hr => simp [CycleOutcome.isFailure] at h
  | timeout => rfl
  | unexpected => rfl

/-- C2, witness: the retention part applied to a concrete timeout
cycle following the successful cycle. -/
theorem C2_witness :
    (refreshStep haAfterOk ⟨[], exampleEntry, 3, .timeout⟩).data =
      haAfterOk.data :=
  C2_snapshot_policy.1 haAfterOk ⟨[], exampleEntry, 3, .timeout⟩ rfl

theorem run_failures (envs : List CycleEnv) :
    ∀ (ha : HAState), ha.data = none → ha.internal.providers = none →
      (∀ env ∈ envs, env.outcome.isFailure = true) →
      (envs.foldl refreshStep ha).data = none ∧
        (envs.foldl refreshStep ha).internal.providers = none := by
  induction envs with
  | nil => intro ha h1 h2 _; exact ⟨h1, h2⟩
  | cons env rest ih =>
    intro ha h1 h2 hall
    have henv := hall env (List.mem_cons_self env rest)
    rcases env with ⟨cfg, ed, now, oc⟩
    rw [List.foldl_cons]
    cases oc with
    | completes hr => simp [CycleOutcome.isFailure] at henv
    | timeout =>
      exact ih _ (by simpa [refreshStep] using h1)
        (by simpa [refreshStep] using h2)
        (fun e he => hall e (List.mem_cons_of_mem _ he))
    | unexpected =>
      exact ih _ (by simpa [refreshStep] using h1)
        (by simpa [refreshStep] using h2)
        (fun e he => hall e (List.mem_cons_of_mem _ he))

/-- C8: the synchronous accessor is a total function into snapshots (it
never yields null: before the first successful refresh it falls back to
the state dictionary), at construction it returns the empty baseline
snapshot with no stations and no recommendation without any network
interaction (the accessor consumes no transport outcome), and as long
as no cycle has succeeded it keeps returning a snapshot with no
stations and no recommendation. -/
theorem C8_snapshot_always_available :
    (∀ entryData, snapshotAcc (initHA entryData) = snapshotOf initState) ∧
      stationsOf (snapshotOf initState) = [] ∧
      recommendationOf (snapshotOf initState) = none ∧
      (∀ entryData envs, (∀ env ∈ envs, env.outcome.isFailure = true) →
        stationsOf (snapshotAcc (run entryData envs)) = [] ∧
          recommendationOf (snapshotAcc (run entryData envs)) = none) := by
  refine ⟨fun ed => rfl, rfl, rfl, ?_⟩
  intro ed envs hall
  have h := run_failures envs (initHA ed) rfl rfl hall
  have hprov : (run ed envs).internal.providers = none := h.2
  have hsnap : snapshotAcc (run ed envs) =
      snapshotOf (run ed envs).internal := by
    unfold snapshotAcc
    rw [show (run ed envs).data = none from h.1]
  constructor
  · rw [hsnap]
    simp [stationsOf, snapshotOf, hprov]
  · rw [hsnap]
    simp [recommendationOf, stationsOf, snapshotOf, hprov]

/-- C8, witness: the persistent-baseline part applied to a one-cycle
run that times out. -/
theorem C8_witness :
    stationsOf (snapshotAcc (run exampleEntry
        [⟨[], exampleEntry, 1, .timeout⟩])) = [] ∧
      recommendationOf (snapshotAcc (run exampleEntry
        [⟨[], exampleEntry, 1, .timeout⟩])) = none :=
  C8_snapshot_always_available.2.2.2 exampleEntry
    [⟨[], exampleEntry, 1, .timeout⟩]
    (by
      intro env he
      rcases List.mem_singleton.mp he with rfl
      rfl)

/-- C10: in the coordinator fetch, each of the four runtime-config
values falls back to the config-entry value whenever its runtime value
is falsy (0, 0.0, the empty string, or absent), because the resolution
is the Python or; in particular a runtime latitude of exactly 0.0 with
no entry-data latitude resolves to None, so the station fetch of the
cycle is skipped entirely and the provider entry is left untouched. -/
theorem C10_falsy_config_fallback :
    (∀ cfg entryData, truthy (pyGet cfg "latitude") = false →
      resolvedLatitude cfg entryData = pyGet entryData "latitude") ∧
      (∀ cfg entryData, truthy (pyGet cfg "longitude") = false →
        resolvedLongitude cfg entryData = pyGet entryData "longitude") ∧
      (∀ cfg entryData, truthy (pyGet cfg "radius") = false →
        resolvedRadius cfg entryData = pyGetD entryData "radius" (.num 5)) ∧
      (∀ cfg entryData, truthy (pyGet cfg "fuel_type") = false →
        resolvedFuelType cfg entryData =
          pyGetD entryData "fuel_type" (.str "e5")) ∧
      (∀ st cfg entryData hr now, pyGet cfg "latitude" = .num 0 →
        lookup entryData "latitude" = none →
        (asyncFetchData st cfg entryData true hr now).fetched = false ∧
          (asyncFetchData st cfg entryData true hr now).state.providers =
            st.providers) := by
  refine ⟨?_, ?_, ?_, ?_, ?_⟩
  · intro cfg ed h; simp [resolvedLatitude, pyOr, h]
  · intro cfg ed h; simp [resolvedLongitude, pyOr, h]
  · intro cfg ed h; simp [resolvedRadius, pyOr, h]
  · intro cfg ed h; simp [resolvedFuelType, pyOr, h]
  · intro st cfg ed hr now h1 h2
    have hlat : resolvedLatitude cfg ed = .null := by
      unfold resolvedLatitude
      rw [h1]
      simp [pyOr, truthy, pyGet, h2]
    constructor <;> simp [asyncFetchData, hlat, JVal.isNull]

/-- C10, witness: the latitude fallback applied to a falsy runtime
latitude with an entry-data fallback, and the skip part applied to a
zero runtime latitude with no entry-data latitude. -/
theorem C10_witness :
    resolvedLatitude [("latitude", JVal.num 0)] [("latitude", JVal.num 51)] =
        pyGet [("latitude", JVal.num 51)] "latitude" ∧
      (asyncFetchData initState [("latitude", JVal.num 0)] [] true
        (.transportError "unreachable") 5).fetched = false :=
  ⟨C10_falsy_config_fallback.1 [("latitude", JVal.num 0)]
      [("latitude", JVal.num 51)] (by decide),
    (C10_falsy_config_fallback.2.2.2.2 initState [("latitude", JVal.num 0)]
      [] (.transportError "unreachable") 5 rfl rfl).1⟩

end FWCAM
